import Mathlib

/-
Verification of the auto-request-accept bot (src/main.py): a shallow
embedding of the SQLite user store and of the four event handlers
(start, join request, admin panel buttons, broadcast), together with
theorems settling the specification claims.

The external bot transport is modelled by explicit outcome parameters:
each outbound call either succeeds or fails with an error. The error
taxonomy follows telegram.error: Forbidden (recipient blocked the bot
or never started it) is a subclass of TelegramError; every transport
error a handler can see is a TelegramError.
-/

namespace Bot

/-- A row of the `users` table (main.py init_db): primary key user_id,
optional username, first_name, last_seen timestamp, is_blocked flag
(INTEGER 0/1, modelled as Bool). Timestamps are abstract Nat. -/
structure UserRec where
  user_id : Nat
  username : Option String
  first_name : String
  last_seen : Nat
  is_blocked : Bool
deriving DecidableEq, Repr

/-- The users table, as the list of its rows. -/
abbrev Store := List UserRec

/-- add_or_update_user (main.py lines 62-70): INSERT OR REPLACE keyed on
user_id, writing is_blocked = 0 and last_seen = now. REPLACE deletes any
existing row with the same primary key and inserts the new row. -/
def add_or_update_user (uid : Nat) (uname : Option String) (fname : String)
    (now : Nat) (store : Store) : Store :=
  store.filter (fun r => r.user_id ≠ uid) ++ [⟨uid, uname, fname, now, false⟩]

/-- get_active_users (main.py lines 73-79): SELECT user_id WHERE is_blocked = 0. -/
def get_active_users (store : Store) : List Nat :=
  (store.filter (fun r => !r.is_blocked)).map (fun r => r.user_id)

/-- block_user (main.py lines 82-87): UPDATE users SET is_blocked = 1
WHERE user_id = ?. -/
def block_user (uid : Nat) (store : Store) : Store :=
  store.map (fun r => if r.user_id = uid then { r with is_blocked := true } else r)

/-- clean_blocked (main.py lines 90-97): DELETE FROM users WHERE
is_blocked = 1; returns (rowcount of the DELETE, remaining table). -/
def clean_blocked (store : Store) : Nat × Store :=
  (store.countP (fun r => r.is_blocked), store.filter (fun r => !r.is_blocked))

/-- get_stats (main.py lines 100-108): total = COUNT(*), active = COUNT
WHERE is_blocked = 0, blocked = total - active (computed by subtraction
in the code). -/
def get_stats (store : Store) : Nat × Nat × Nat :=
  let total := store.length
  let active := store.countP (fun r => !r.is_blocked)
  (total, active, total - active)

end Bot

namespace Bot

/-- Outcome taxonomy of an outbound transport call: telegram.error
Forbidden (recipient blocked the bot / never started it) or any other
TelegramError. `Option TErr` is the outcome of one call: `none` means
the call succeeded. -/
inductive TErr where
  | forbidden
  | other
deriving DecidableEq, Repr

/-- An incoming Telegram message as the broadcast handler inspects it:
msg.text, msg.caption (None or a string), msg.photo (a list of photo
sizes, the code sends the file_id of the last one), msg.video and
msg.document (None or an object with a file_id). -/
structure Msg where
  text : Option String
  caption : Option String
  photo : List String
  video : Option String
  document : Option String
deriving DecidableEq, Repr

/-- Python `a or b` on an optional string: None and the empty string are
falsy, so the right operand is used for both. -/
def pyStrOr (a : Option String) (b : String) : String :=
  match a with
  | none => b
  | some s => if s = "" then b else s

/-- main.py line 209: `text = msg.text or msg.caption or ""`. -/
def msgText (m : Msg) : String :=
  pyStrOr m.text (pyStrOr m.caption "")

/-- The outbound send call the broadcast loop issues for one recipient:
send_photo / send_video / send_document with a caption, or send_message
with a plain text body. -/
inductive SendCall where
  | photo (fileId : String) (caption : String)
  | video (fileId : String) (caption : String)
  | document (fileId : String) (caption : String)
  | message (body : String)
deriving DecidableEq, Repr

/-- The if/elif chain of main.py lines 217-224: if msg.photo (nonempty
list) send the last photo size, elif msg.video, elif msg.document, else
send_message with the text. -/
def sendCall (m : Msg) : SendCall :=
  match m.photo.getLast? with
  | some fid => .photo fid (msgText m)
  | none =>
    match m.video with
    | some fid => .video fid (msgText m)
    | none =>
      match m.document with
      | some fid => .document fid (msgText m)
      | none => .message (msgText m)

/-- Modelled from the spec: the tagged variant of captured broadcast
content the spec asks for (design note: represent media precedence as
an explicit ordered match over a tagged variant). -/
inductive Captured where
  | photo (fileId : String) (caption : String)
  | video (fileId : String) (caption : String)
  | document (fileId : String) (caption : String)
  | text (body : String)
deriving DecidableEq, Repr

/-- Modelled from the spec: capture a message as a tagged variant by the
fixed precedence photo > video > document > plain text, first match
wins, as one ordered match. -/
def captureContent (m : Msg) : Captured :=
  match m.photo.getLast?, m.video, m.document with
  | some fid, _, _ => .photo fid (msgText m)
  | none, some fid, _ => .video fid (msgText m)
  | none, none, some fid => .document fid (msgText m)
  | none, none, none => .text (msgText m)

/-- Modelled from the spec: the delivery call made for a captured
variant (caption attached to media, else plain text body). -/
def deliverAs : Captured → SendCall
  | .photo fid cap => .photo fid cap
  | .video fid cap => .video fid cap
  | .document fid cap => .document fid cap
  | .text body => .message body

/-- The mutable state a handler touches: the users table plus the
per-conversation user_data broadcast flag
(context.user_data with key broadcast, absent = falsy = false). -/
structure HState where
  store : Store
  broadcastFlag : Bool
deriving DecidableEq, Repr

/-- Result of the per-recipient loop of `broadcast` (main.py lines
211-230): the table after the pass, the success and failed counters,
and the trace of delivery attempts made (recipient, call issued). -/
structure LoopRes where
  store : Store
  success : Nat
  failed : Nat
  trace : List (Nat × SendCall)
deriving DecidableEq, Repr

/-- The for-loop of main.py lines 215-230. `outcome u` is what the
transport does when the message is sent to u: succeed, raise Forbidden,
or raise another TelegramError. On success the success counter is
incremented; `except Forbidden` runs block_user and increments failed;
`except TelegramError` increments failed without touching the store.
Every iteration makes exactly one delivery attempt, recorded in the
trace. -/
def broadcastLoop (call : SendCall) (outcome : Nat → Option TErr) :
    List Nat → Store → LoopRes
  | [], store => ⟨store, 0, 0, []⟩
  | u :: rest, store =>
    match outcome u with
    | none =>
      let r := broadcastLoop call outcome rest store
      ⟨r.store, r.success + 1, r.failed, (u, call) :: r.trace⟩
    | some TErr.forbidden =>
      let r := broadcastLoop call outcome rest (block_user u store)
      ⟨r.store, r.success, r.failed + 1, (u, call) :: r.trace⟩
    | some TErr.other =>
      let r := broadcastLoop call outcome rest store
      ⟨r.store, r.success, r.failed + 1, (u, call) :: r.trace⟩

/-- Result of running one handler: the state afterwards (Python mutations
made before an exception persist), the exception that escaped the
handler if any, plus the observable outputs of the broadcast handler:
its counters, its delivery-attempt trace, and the summary message
actually delivered to the admin (None if none was sent). -/
structure BResult where
  state : HState
  escaped : Option TErr
  success : Nat
  failed : Nat
  trace : List (Nat × SendCall)
  summary : Option (Nat × Nat)
deriving DecidableEq, Repr

/-- broadcast handler (main.py lines 199-234). Guards: sender must be
ADMIN_ID, the user_data broadcast flag must be truthy; then the flag is
reset to False before any delivery attempt, the active users are
fetched, the loop runs with every send wrapped in try/except, and
finally reply_text reports the counters — that last call is NOT inside
a try block, so if it fails (`replyRes`) the error escapes the handler
with all prior mutations kept. -/
def broadcast (adminId senderId : Nat) (msg : Msg) (outcome : Nat → Option TErr)
    (replyRes : Option TErr) (st : HState) : BResult :=
  if senderId ≠ adminId then ⟨st, none, 0, 0, [], none⟩
  else if !st.broadcastFlag then ⟨st, none, 0, 0, [], none⟩
  else
    let r := broadcastLoop (sendCall msg) outcome (get_active_users st.store) st.store
    let st2 : HState := ⟨r.store, false⟩
    match replyRes with
    | none => ⟨st2, none, r.success, r.failed, r.trace, some (r.success, r.failed)⟩
    | some e => ⟨st2, some e, r.success, r.failed, r.trace, none⟩

/-- The identity fields of update.effective_user / the join requester. -/
structure UserInfo where
  id : Nat
  username : Option String
  first_name : String
deriving DecidableEq, Repr

/-- start handler (main.py lines 114-132): upsert the sender, then reply
(admin panel for the admin, the add-me keyboard otherwise). The
reply_text call is not inside a try block, so a transport failure
(`replyRes`) escapes the handler; the upsert has already been
committed. -/
def start (adminId : Nat) (u : UserInfo) (now : Nat) (replyRes : Option TErr)
    (st : HState) : HState × Option TErr :=
  (⟨add_or_update_user u.id u.username u.first_name now st.store, st.broadcastFlag⟩,
    replyRes)

/-- handle_join_request (main.py lines 135-160): inside
`try ... except TelegramError`, approve the request, upsert the user,
and send the welcome message inside a nested `except Forbidden`. If the
approval call fails (`approveRes`) the upsert is never reached; any
outcome of the welcome send (`sendRes`, Forbidden or another
TelegramError) is caught by the inner or outer except, so no error ever
escapes this handler. -/
def handle_join_request (approveRes sendRes : Option TErr) (u : UserInfo)
    (now : Nat) (st : HState) : HState × Option TErr :=
  match approveRes with
  | some _ => (st, none)
  | none =>
    match sendRes with
    | _ => (⟨add_or_update_user u.id u.username u.first_name now st.store,
             st.broadcastFlag⟩, none)

/-- admin_buttons handler (main.py lines 181-196): answer the callback
(`ansRes`, not in a try block — a failure escapes before anything else
happens); non-admin senders get an alert answer (`alertRes`, also
unprotected) and nothing else; for the admin, data "broadcast" edits
the panel message (`editRes`, unprotected — on failure the flag is NOT
set) then sets the user_data broadcast flag, and data "clean_db" runs
clean_blocked and then edits the message (on failure the deletion has
already been committed). -/
def admin_buttons (adminId uid : Nat) (data : String)
    (ansRes alertRes editRes : Option TErr) (st : HState) :
    HState × Option TErr :=
  match ansRes with
  | some e => (st, some e)
  | none =>
    if uid ≠ adminId then (st, alertRes)
    else if data = "broadcast" then
      match editRes with
      | some e => (st, some e)
      | none => (⟨st.store, true⟩, none)
    else if data = "clean_db" then
      (⟨(clean_blocked st.store).2, st.broadcastFlag⟩, editRes)
    else (st, none)

/-- One upsert operation aimed at a fixed user id: (username,
first_name, timestamp of the call). -/
abbrev Upsert := Option String × String × Nat

/-- A sequence of add_or_update_user calls for the same user id, applied
in order. -/
def applyUpserts (uid : Nat) (ops : List Upsert) (store : Store) : Store :=
  ops.foldl (fun s op => add_or_update_user uid op.1 op.2.1 op.2.2 s) store

end Bot

namespace Bot

/- ------------------------------------------------------------------
Helper lemmas about the store operations.
------------------------------------------------------------------ -/

theorem filter_add_or_update (uid : Nat) (un : Option String) (fn : String)
    (now : Nat) (store : Store) :
    (add_or_update_user uid un fn now store).filter (fun r => r.user_id = uid)
      = [⟨uid, un, fn, now, false⟩] := by
  simp [add_or_update_user, List.filter_append, List.filter_filter]

theorem applyUpserts_cons (uid : Nat) (op : Upsert) (ops : List Upsert)
    (store : Store) :
    applyUpserts uid (op :: ops) store
      = applyUpserts uid ops (add_or_update_user uid op.1 op.2.1 op.2.2 store) := by
  simp [applyUpserts]

/-- Claim C4. For every nonempty sequence of upserts to the same user
identifier, the store afterwards holds exactly one record for that
identifier — its filter on that id is the singleton of the record whose
username, first_name and last_seen come from the most recent upsert,
with is_blocked false — regardless of the prior state of the store. -/
theorem upsert_last_write_wins (uid : Nat) (ops : List Upsert) (op : Upsert)
    (store : Store) (h : ops.getLast? = some op) :
    (applyUpserts uid ops store).filter (fun r => r.user_id = uid)
      = [⟨uid, op.1, op.2.1, op.2.2, false⟩] := by
  induction ops generalizing store with
  | nil => simp at h
  | cons a rest ih =>
    cases rest with
    | nil =>
      simp only [List.getLast?_singleton, Option.some.injEq] at h
      subst h
      rw [applyUpserts_cons]
      simpa [applyUpserts] using
        filter_add_or_update uid a.1 a.2.1 a.2.2 store
    | cons b rest2 =>
      rw [applyUpserts_cons]
      exact ih _ (by simpa using h)

/-- Witness for C4 at a concrete store and a two-element upsert
sequence. -/
theorem upsert_last_write_wins_witness :
    ([((some "u1" : Option String), "A", (3 : Nat)),
      ((none : Option String), "B", (7 : Nat))].getLast?
        = some ((none : Option String), "B", (7 : Nat))) ∧
    (applyUpserts 1
        [((some "u1" : Option String), "A", (3 : Nat)),
         ((none : Option String), "B", (7 : Nat))]
        [⟨1, none, "old", 0, true⟩, ⟨2, none, "c", 0, false⟩]).filter
        (fun r => r.user_id = 1)
      = [⟨1, none, "B", 7, false⟩] :=
  ⟨by decide,
   upsert_last_write_wins 1
     [((some "u1" : Option String), "A", (3 : Nat)),
      ((none : Option String), "B", (7 : Nat))]
     ((none : Option String), "B", (7 : Nat))
     [⟨1, none, "old", 0, true⟩, ⟨2, none, "c", 0, false⟩] (by decide)⟩

/-- Claim C5. clean_blocked deletes exactly the records whose is_blocked
flag is true: a record is in the resulting table iff it was in the
table and not blocked, the returned count is exactly the number of
blocked records, and count plus remaining rows equals the old total. -/
theorem clean_blocked_exact (store : Store) :
    (∀ r, r ∈ (clean_blocked store).2 ↔ r ∈ store ∧ r.is_blocked = false) ∧
    (clean_blocked store).1 = (store.filter (fun r => r.is_blocked)).length ∧
    (clean_blocked store).1 + (clean_blocked store).2.length = store.length := by
  refine ⟨fun r => ?_, ?_, ?_⟩
  · simp [clean_blocked, List.mem_filter]
  · simp [clean_blocked, List.countP_eq_length_filter]
  · simp only [clean_blocked, List.countP_eq_length_filter, ← List.length_append]
    have h : ∀ l : Store,
        (l.filter (fun r => r.is_blocked)).length
          + (l.filter (fun r => !r.is_blocked)).length = l.length := by
      intro l
      induction l with
      | nil => rfl
      | cons a t iht =>
        by_cases hb : a.is_blocked <;>
          simp [List.filter_cons, hb, ← iht] <;> omega
    simpa [List.length_append] using h store

/-- Claim C6. The triple returned by get_stats is a partition: total =
active + blocked, where total counts all records, active the records
with is_blocked false, and blocked the records with is_blocked true. -/
theorem stats_partition (store : Store) :
    (get_stats store).1 = (get_stats store).2.1 + (get_stats store).2.2 ∧
    (get_stats store).1 = store.length ∧
    (get_stats store).2.1 = store.countP (fun r => !r.is_blocked) ∧
    (get_stats store).2.2 = store.countP (fun r => r.is_blocked) := by
  have hsplit : store.length
      = store.countP (fun r => r.is_blocked)
        + store.countP (fun r => !r.is_blocked) := by
    induction store with
    | nil => rfl
    | cons a t iht =>
      simp only [List.length_cons, List.countP_cons, iht]
      by_cases hb : a.is_blocked <;> simp [hb] <;> omega
  have hle : store.countP (fun r => !r.is_blocked) ≤ store.length :=
    List.countP_le_length _
  refine ⟨?_, rfl, rfl, ?_⟩ <;> simp [get_stats] <;> omega

/- ------------------------------------------------------------------
Closed forms for the broadcast loop.
------------------------------------------------------------------ -/

theorem broadcastLoop_store (call : SendCall) (o : Nat → Option TErr)
    (us : List Nat) (store : Store) :
    (broadcastLoop call o us store).store
      = store.map (fun r =>
          if r.user_id ∈ us ∧ o r.user_id = some TErr.forbidden
          then { r with is_blocked := true } else r) := by
  induction us generalizing store with
  | nil => simp [broadcastLoop]
  | cons u rest ih =>
    cases h : o u with
    | none =>
      simp only [broadcastLoop, h]
      rw [ih]
      apply List.map_congr_left
      intro r _
      by_cases hr : r.user_id = u
      · have hforb : ¬ o r.user_id = some TErr.forbidden := by rw [hr, h]; simp
        simp [hforb]
      · simp [List.mem_cons, hr]
    | some e =>
      cases e with
      | other =>
        simp only [broadcastLoop, h]
        rw [ih]
        apply List.map_congr_left
        intro r _
        by_cases hr : r.user_id = u
        · have hforb : ¬ o r.user_id = some TErr.forbidden := by rw [hr, h]; simp
          simp [hforb]
        · simp [List.mem_cons, hr]
      | forbidden =>
        simp only [broadcastLoop, h]
        rw [ih]
        simp only [block_user, List.map_map]
        apply List.map_congr_left
        intro r _
        by_cases hr : r.user_id = u
        · have hforb : o r.user_id = some TErr.forbidden := by rw [hr, h]
          simp only [Function.comp, hr, if_pos rfl]
          have huid : ({ r with is_blocked := true } : UserRec).user_id = u := hr
          by_cases hm : u ∈ rest
          · simp [huid, hr, h, hm]
          · simp [huid, hr, h, hm]
        · simp only [Function.comp, hr, if_neg hr]
          simp [List.mem_cons, hr]

theorem broadcastLoop_counts (call : SendCall) (o : Nat → Option TErr)
    (us : List Nat) (store : Store) :
    (broadcastLoop call o us store).success
        = us.countP (fun u => o u == none) ∧
    (broadcastLoop call o us store).failed
        = us.countP (fun u => o u == some TErr.forbidden)
          + us.countP (fun u => o u == some TErr.other) ∧
    (broadcastLoop call o us store).trace = us.map (fun u => (u, call)) := by
  induction us generalizing store with
  | nil => simp [broadcastLoop]
  | cons u rest ih =>
    cases h : o u with
    | none =>
      obtain ⟨ih1, ih2, ih3⟩ := ih store
      simp [broadcastLoop, h, List.countP_cons, ih1, ih2, ih3]
    | some e =>
      cases e with
      | forbidden =>
        obtain ⟨ih1, ih2, ih3⟩ := ih (block_user u store)
        simp [broadcastLoop, h, List.countP_cons, ih1, ih2, ih3]
        omega
      | other =>
        obtain ⟨ih1, ih2, ih3⟩ := ih store
        simp [broadcastLoop, h, List.countP_cons, ih1, ih2, ih3]
        omega

theorem outcome_counts_total (o : Nat → Option TErr) (us : List Nat) :
    us.countP (fun u => o u == none)
      + (us.countP (fun u => o u == some TErr.forbidden)
          + us.countP (fun u => o u == some TErr.other))
      = us.length := by
  induction us with
  | nil => rfl
  | cons u rest ih =>
    cases h : o u with
    | none => simp [List.countP_cons, h]; omega
    | some e => cases e <;> simp [List.countP_cons, h] <;> omega

theorem broadcast_store_condition (o : Nat → Option TErr) (store : Store) :
    store.map (fun r =>
        if r.user_id ∈ get_active_users store ∧ o r.user_id = some TErr.forbidden
        then { r with is_blocked := true } else r)
      = store.map (fun r =>
          if r.is_blocked = false ∧ o r.user_id = some TErr.forbidden
          then { r with is_blocked := true } else r) := by
  apply List.map_congr_left
  intro r hr
  by_cases hb : r.is_blocked
  · have heq : ({ r with is_blocked := true } : UserRec) = r := by
      cases r
      simp_all
    have h2 : (if r.is_blocked = false ∧ o r.user_id = some TErr.forbidden
        then { r with is_blocked := true } else r) = r := by
      simp [hb]
    rw [h2]
    split
    · exact heq
    · rfl
  · have hmem : r.user_id ∈ get_active_users store :=
      List.mem_map.2 ⟨r, List.mem_filter.2 ⟨hr, by simp [hb]⟩, rfl⟩
    simp [hmem, hb]

theorem forbidden_count_over_actives (o : Nat → Option TErr) (store : Store) :
    (get_active_users store).countP (fun u => o u == some TErr.forbidden)
      = store.countP (fun r => !r.is_blocked && (o r.user_id == some TErr.forbidden)) := by
  simp only [get_active_users, List.countP_map, List.countP_filter]
  apply List.countP_congr
  intro r _
  simp [Function.comp, Bool.and_comm]

theorem blocked_count_after_pass (o : Nat → Option TErr) (store : Store) :
    ((store.map (fun r =>
        if r.is_blocked = false ∧ o r.user_id = some TErr.forbidden
        then { r with is_blocked := true } else r)).countP (fun r => r.is_blocked))
      = store.countP (fun r => r.is_blocked)
        + (get_active_users store).countP (fun u => o u == some TErr.forbidden) := by
  rw [forbidden_count_over_actives]
  induction store with
  | nil => rfl
  | cons a t iht =>
    simp only [List.map_cons, List.countP_cons]
    by_cases hb : a.is_blocked <;> by_cases hf : o a.user_id = some TErr.forbidden <;>
      simp [hb, hf, iht] <;> omega

theorem broadcast_components (adminId : Nat) (msg : Msg)
    (outcome : Nat → Option TErr) (replyRes : Option TErr) (store : Store) :
    (broadcast adminId adminId msg outcome replyRes ⟨store, true⟩).state.store
        = (broadcastLoop (sendCall msg) outcome (get_active_users store) store).store ∧
    (broadcast adminId adminId msg outcome replyRes ⟨store, true⟩).success
        = (broadcastLoop (sendCall msg) outcome (get_active_users store) store).success ∧
    (broadcast adminId adminId msg outcome replyRes ⟨store, true⟩).failed
        = (broadcastLoop (sendCall msg) outcome (get_active_users store) store).failed ∧
    (broadcast adminId adminId msg outcome replyRes ⟨store, true⟩).trace
        = (broadcastLoop (sendCall msg) outcome (get_active_users store) store).trace := by
  cases replyRes <;> simp [broadcast]

theorem broadcast_state_store_map (adminId : Nat) (msg : Msg)
    (outcome : Nat → Option TErr) (replyRes : Option TErr) (store : Store) :
    (broadcast adminId adminId msg outcome replyRes ⟨store, true⟩).state.store
      = store.map (fun r =>
          if r.is_blocked = false ∧ outcome r.user_id = some TErr.forbidden
          then { r with is_blocked := true } else r) := by
  obtain ⟨hst, -, -, -⟩ := broadcast_components adminId msg outcome replyRes store
  rw [hst, broadcastLoop_store, broadcast_store_condition]

/-- Claim C1: in a broadcast pass over the active users, exactly the
previously-unblocked records whose delivery fails with Forbidden are
set to is_blocked, every other record is returned unchanged, the number
of blocked records grows by exactly the number K of Forbidden failures,
the failed counter is K plus the number of other transport errors (no
store mutation for those), the success counter is the number of
successful deliveries, and the failure count is at least K. -/
theorem broadcast_forbidden_marks_blocked (adminId : Nat) (msg : Msg)
    (outcome : Nat → Option TErr) (replyRes : Option TErr) (store : Store) :
    (broadcast adminId adminId msg outcome replyRes ⟨store, true⟩).state.store
        = store.map (fun r =>
            if r.is_blocked = false ∧ outcome r.user_id = some TErr.forbidden
            then { r with is_blocked := true } else r) ∧
    ((broadcast adminId adminId msg outcome replyRes ⟨store, true⟩).state.store.countP
          (fun r => r.is_blocked))
        = store.countP (fun r => r.is_blocked)
          + (get_active_users store).countP (fun u => outcome u == some TErr.forbidden) ∧
    (broadcast adminId adminId msg outcome replyRes ⟨store, true⟩).failed
        = (get_active_users store).countP (fun u => outcome u == some TErr.forbidden)
          + (get_active_users store).countP (fun u => outcome u == some TErr.other) ∧
    (broadcast adminId adminId msg outcome replyRes ⟨store, true⟩).success
        = (get_active_users store).countP (fun u => outcome u == none) ∧
    (get_active_users store).countP (fun u => outcome u == some TErr.forbidden)
        ≤ (broadcast adminId adminId msg outcome replyRes ⟨store, true⟩).failed := by
  obtain ⟨-, hsuc, hfail, -⟩ :=
    broadcast_components adminId msg outcome replyRes store
  obtain ⟨c1, c2, -⟩ :=
    broadcastLoop_counts (sendCall msg) outcome (get_active_users store) store
  have hmap := broadcast_state_store_map adminId msg outcome replyRes store
  refine ⟨hmap, ?_, ?_, ?_, ?_⟩
  · rw [hmap, blocked_count_after_pass]
  · rw [hfail, c2]
  · rw [hsuc, c1]
  · rw [hfail, c2]
    exact Nat.le_add_right _ _

/-- Claim C2: the delivery call is chosen by the fixed media precedence
photo > video > document > plain text, first match wins, with the
caption or text attached — the sequential conditional chain of the code
equals the explicit ordered match over the tagged captured-content
variant — and the very same call is issued to every recipient of the
pass. -/
theorem broadcast_media_precedence (adminId : Nat) (msg : Msg)
    (outcome : Nat → Option TErr) (replyRes : Option TErr) (store : Store) :
    sendCall msg = deliverAs (captureContent msg) ∧
    (broadcast adminId adminId msg outcome replyRes ⟨store, true⟩).trace
      = (get_active_users store).map (fun u => (u, sendCall msg)) := by
  constructor
  · cases hp : msg.photo.getLast? <;> cases hv : msg.video <;>
      cases hd : msg.document <;>
      simp [sendCall, captureContent, deliverAs, hp, hv, hd]
  · obtain ⟨-, -, -, htr⟩ := broadcast_components adminId msg outcome replyRes store
    obtain ⟨-, -, c3⟩ :=
      broadcastLoop_counts (sendCall msg) outcome (get_active_users store) store
    rw [htr, c3]

/-- Claim C10: a broadcast pass makes exactly one delivery attempt per
user returned by the active-user fetch at the start of the pass, every
attempt is counted exactly once as succeeded or failed, the two
counters add up to the number of fetched active users, and the summary,
when one is delivered, reports exactly those two counters. -/
theorem broadcast_counts_complete (adminId : Nat) (msg : Msg)
    (outcome : Nat → Option TErr) (replyRes : Option TErr) (store : Store) :
    (broadcast adminId adminId msg outcome replyRes ⟨store, true⟩).trace.map Prod.fst
        = get_active_users store ∧
    (broadcast adminId adminId msg outcome replyRes ⟨store, true⟩).success
        + (broadcast adminId adminId msg outcome replyRes ⟨store, true⟩).failed
        = (get_active_users store).length ∧
    ((broadcast adminId adminId msg outcome replyRes ⟨store, true⟩).summary = none ∨
      (broadcast adminId adminId msg outcome replyRes ⟨store, true⟩).summary
        = some ((broadcast adminId adminId msg outcome replyRes ⟨store, true⟩).success,
                (broadcast adminId adminId msg outcome replyRes ⟨store, true⟩).failed)) := by
  obtain ⟨-, hsuc, hfail, htr⟩ := broadcast_components adminId msg outcome replyRes store
  obtain ⟨c1, c2, c3⟩ :=
    broadcastLoop_counts (sendCall msg) outcome (get_active_users store) store
  refine ⟨?_, ?_, ?_⟩
  · have hid : (Prod.fst ∘ fun u : Nat => (u, sendCall msg)) = id := rfl
    rw [htr, c3, List.map_map, hid, List.map_id]
  · rw [hsuc, hfail, c1, c2]
    exact outcome_counts_total outcome (get_active_users store)
  · cases replyRes <;> simp [broadcast]

/-- Claim C9: once the admin message following the broadcast button is
captured, the awaiting-broadcast-content flag is false — whatever the
delivery outcomes and whether or not the summary reply succeeds — and a
subsequent admin message finds the flag lowered, so it triggers no
second pass: the state is returned unchanged with no delivery attempt
and no summary. -/
theorem broadcast_capture_once (adminId : Nat) (msg msg2 : Msg)
    (outcome outcome2 : Nat → Option TErr) (replyRes replyRes2 : Option TErr)
    (store : Store) :
    (broadcast adminId adminId msg outcome replyRes ⟨store, true⟩).state.broadcastFlag
        = false ∧
    (broadcast adminId adminId msg outcome replyRes ⟨store, true⟩).trace
        = (get_active_users store).map (fun u => (u, sendCall msg)) ∧
    broadcast adminId adminId msg2 outcome2 replyRes2
        (broadcast adminId adminId msg outcome replyRes ⟨store, true⟩).state
      = ⟨(broadcast adminId adminId msg outcome replyRes ⟨store, true⟩).state,
         none, 0, 0, [], none⟩ := by
  obtain ⟨-, -, -, htr⟩ := broadcast_components adminId msg outcome replyRes store
  obtain ⟨-, -, c3⟩ :=
    broadcastLoop_counts (sendCall msg) outcome (get_active_users store) store
  refine ⟨?_, ?_, ?_⟩
  · cases replyRes <;> simp [broadcast]
  · rw [htr, c3]
  · cases replyRes <;> simp [broadcast]

/-- Claim C8: a callback-query press or a captured message whose sender
is not the configured administrator changes neither the store nor the
broadcast flag, triggers no broadcast pass and no purge, whatever the
flag already was. -/
theorem non_admin_no_effect (adminId uid senderId : Nat) (data : String)
    (ansRes alertRes editRes replyRes : Option TErr) (st st2 : HState)
    (msg : Msg) (outcome : Nat → Option TErr)
    (h1 : uid ≠ adminId) (h2 : senderId ≠ adminId) :
    (admin_buttons adminId uid data ansRes alertRes editRes st).1 = st ∧
    broadcast adminId senderId msg outcome replyRes st2
      = ⟨st2, none, 0, 0, [], none⟩ := by
  constructor
  · cases ansRes <;> simp [admin_buttons, h1]
  · simp [broadcast, h2]

/-- Witness for C8 at concrete non-admin identifiers. -/
theorem non_admin_no_effect_witness :
    (admin_buttons 1 2 "broadcast" none none none ⟨[], false⟩).1 = ⟨[], false⟩ ∧
    broadcast 1 3 ⟨none, none, [], none, none⟩ (fun _ => none) none ⟨[], true⟩
      = ⟨⟨[], true⟩, none, 0, 0, [], none⟩ :=
  non_admin_no_effect 1 2 3 "broadcast" none none none none
    ⟨[], false⟩ ⟨[], true⟩ ⟨none, none, [], none, none⟩ (fun _ => none)
    (by decide) (by decide)

theorem admin_buttons_store_subset (adminId uid : Nat) (data : String)
    (ansRes alertRes editRes : Option TErr) (st : HState) :
    ∀ r ∈ (admin_buttons adminId uid data ansRes alertRes editRes st).1.store,
      r ∈ st.store := by
  intro r hr
  cases ansRes with
  | some e => exact hr
  | none =>
    by_cases h1 : uid = adminId
    · by_cases h2 : data = "broadcast"
      · cases editRes <;> simp_all [admin_buttons]
      · by_cases h3 : data = "clean_db"
        · simp_all [admin_buttons, clean_blocked]
        · simp_all [admin_buttons]
    · simp_all [admin_buttons]

/-- Counterexample to C7 as stated: at the concrete join-request event
of user 7 on the empty store where the approval call fails with a
transport error, the handler leaves the store empty — the requester is
not upserted, although the claim says every incoming join-request event
upserts the requester. -/
theorem join_request_no_upsert_on_approval_failure :
    (handle_join_request (some TErr.other) none ⟨7, none, "N"⟩ 3
        ⟨[], false⟩).1.store = [] := by
  rfl

/-- Claim C7, amended: the start handler always upserts the sender with
is_blocked reset to false; a join-request event whose approval call
succeeds upserts the requester with is_blocked reset to false, while a
join-request event whose approval call fails leaves the state
untouched; and a record in the blocked state is created only by the
broadcast pass, and there only for a user whose delivery attempt failed
with Forbidden — the other handlers never produce a blocked record that
was not already present. -/
theorem interaction_resets_blocked (adminId : Nat) (u : UserInfo) (now : Nat)
    (replyRes sendRes approveRes : Option TErr) (st : HState)
    (msg : Msg) (outcome : Nat → Option TErr) (store : Store)
    (uid2 : Nat) (data : String) (ansRes alertRes editRes : Option TErr)
    (hApp : approveRes = none) :
    ((start adminId u now replyRes st).1.store.filter (fun r => r.user_id = u.id)
        = [⟨u.id, u.username, u.first_name, now, false⟩]) ∧
    ((handle_join_request approveRes sendRes u now st).1.store.filter
          (fun r => r.user_id = u.id)
        = [⟨u.id, u.username, u.first_name, now, false⟩]) ∧
    (∀ e : TErr, (handle_join_request (some e) sendRes u now st).1 = st) ∧
    (∀ r ∈ (start adminId u now replyRes st).1.store,
        r.is_blocked = true → r ∈ st.store) ∧
    (∀ r ∈ (handle_join_request approveRes sendRes u now st).1.store,
        r.is_blocked = true → r ∈ st.store) ∧
    (∀ r ∈ (admin_buttons adminId uid2 data ansRes alertRes editRes st).1.store,
        r.is_blocked = true → r ∈ st.store) ∧
    (∀ r ∈ (broadcast adminId adminId msg outcome replyRes ⟨store, true⟩).state.store,
        r.is_blocked = true →
          ∃ r0 ∈ store, r0.user_id = r.user_id ∧
            (r0.is_blocked = true ∨ outcome r0.user_id = some TErr.forbidden)) := by
  subst hApp
  refine ⟨?_, ?_, ?_, ?_, ?_, ?_, ?_⟩
  · exact filter_add_or_update u.id u.username u.first_name now st.store
  · exact filter_add_or_update u.id u.username u.first_name now st.store
  · intro e
    rfl
  · intro r hr hb
    simp only [start, add_or_update_user, List.mem_append, List.mem_filter,
      List.mem_singleton] at hr
    rcases hr with ⟨hmem, -⟩ | hnew
    · exact hmem
    · rw [hnew] at hb
      simp at hb
  · intro r hr hb
    simp only [handle_join_request, add_or_update_user, List.mem_append,
      List.mem_filter, List.mem_singleton] at hr
    rcases hr with ⟨hmem, -⟩ | hnew
    · exact hmem
    · rw [hnew] at hb
      simp at hb
  · exact fun r hr _ => admin_buttons_store_subset adminId uid2 data ansRes
      alertRes editRes st r hr
  · intro r hr hb
    have hmap := broadcast_state_store_map adminId msg outcome replyRes store
    rw [hmap] at hr
    obtain ⟨r0, hr0, hg⟩ := List.mem_map.1 hr
    refine ⟨r0, hr0, ?_⟩
    by_cases hcond : r0.is_blocked = false ∧ outcome r0.user_id = some TErr.forbidden
    · rw [if_pos hcond] at hg
      rw [← hg]
      exact ⟨rfl, Or.inr hcond.2⟩
    · rw [if_neg hcond] at hg
      rw [← hg]
      exact ⟨rfl, Or.inl (by rw [hg]; exact hb)⟩

/-- Witness for the amended C7: the concrete join-request event of user
7 with a successful approval replaces the previously blocked record of
user 7 by a fresh unblocked one. -/
theorem interaction_resets_blocked_witness :
    (handle_join_request none none ⟨7, some "u7", "Nina"⟩ 3
        ⟨[⟨7, none, "old", 0, true⟩], false⟩).1.store.filter
        (fun r => r.user_id = (7 : Nat))
      = [⟨7, some "u7", "Nina", 3, false⟩] :=
  (interaction_resets_blocked 1 ⟨7, some "u7", "Nina"⟩ 3 none none none
    ⟨[⟨7, none, "old", 0, true⟩], false⟩ ⟨none, none, [], none, none⟩
    (fun _ => none) [] 2 "x" none none none rfl).2.1

/-- Counterexample to C3 as stated: at a concrete broadcast pass whose
per-recipient delivery succeeds but whose final summary reply_text
fails with a transport error, the error escapes the broadcast handler
— contradicting the claim that every failure of an external call made
by a handler is caught at the point of the call. -/
theorem broadcast_summary_error_escapes :
    (broadcast 1 1 ⟨some "hi", none, [], none, none⟩ (fun _ => none)
        (some TErr.other) ⟨[⟨2, none, "x", 0, false⟩], true⟩).escaped
      = some TErr.other := by
  rfl

/-- Claim C3, amended: transport failures of the delivery attempts
inside the broadcast loop never escape (whatever each delivery does,
the broadcast handler can only propagate the failure of its final
summary reply), and the join-request handler catches every transport
failure of its approve and welcome-send calls; but the unprotected
outbound calls — the reply of the start handler, the first callback
answer, the alert answer sent to a non-admin presser, and the
edit_message_text calls of both admin branches of admin_buttons, and
the summary reply of broadcast — propagate their failure out of the
handler. -/
theorem error_containment_amended (adminId senderId uid : Nat) (u : UserInfo)
    (now : Nat) (approveRes sendRes replyRes alertRes editRes : Option TErr)
    (e : TErr) (data : String) (st : HState) (msg : Msg)
    (outcome : Nat → Option TErr) :
    (handle_join_request approveRes sendRes u now st).2 = none ∧
    ((broadcast adminId senderId msg outcome replyRes st).escaped = none ∨
      (broadcast adminId senderId msg outcome replyRes st).escaped = replyRes) ∧
    (start adminId u now replyRes st).2 = replyRes ∧
    (admin_buttons adminId uid data (some e) alertRes editRes st).2 = some e ∧
    (admin_buttons adminId (adminId + 1) data none alertRes editRes st).2
        = alertRes ∧
    (admin_buttons adminId adminId "broadcast" none alertRes editRes st).2
        = editRes ∧
    (admin_buttons adminId adminId "clean_db" none alertRes editRes st).2
        = editRes := by
  refine ⟨?_, ?_, rfl, rfl, ?_, ?_, ?_⟩
  · cases approveRes <;> rfl
  · by_cases h1 : senderId = adminId
    · by_cases h2 : st.broadcastFlag
      · cases replyRes <;> simp [broadcast, h1, h2]
      · simp [broadcast, h1, h2]
    · simp [broadcast, h1]
  · simp [admin_buttons, Nat.succ_ne_self]
  · cases editRes <;> simp [admin_buttons]
  · cases editRes <;> simp [admin_buttons]

end Bot
